import Mathlib

/-!
Verification of the conversation-orchestration core of the trip-advisor agent.

The Python sources are shallowly embedded:
* `app/schemas/state.py` — intent lexicons and `detect_intent_from_message`;
* `app/agents/orchestrator.py` — `_should_allow_intent_transition`, the
  intent-update control flow of `process_user_message`, `_execute_packing_tools`,
  `_handle_processing_phase`, `_run_pre_finalize_checks`;
* `app/agents/data_extractor.py` — `extract_travel_data` and its layered
  pattern / LLM-fallback extraction, `get_missing_critical_slots`;
* `app/schemas/internal.py` — `ReasoningEngine.create_scratchpad` and
  `create_quality_checks`.

Python dictionaries are modelled as ordered association lists over a value
universe covering every value shape the extractor produces.  External
collaborators (the LLM backend, the domain tools) and the purely heuristic
regex sub-extractors that no claim depends on (destination, duration, family
and interest extraction, whose output order even depends on Python set
iteration) are modelled as oracle parameters, so the theorems quantify over
every behaviour of those collaborators.  Everything a claim depends on is
translated from the source line by line.
-/

/-! ### Python string primitives -/

/-- Python whitespace class `\s` restricted to ASCII. -/
def isPySpace (c : Char) : Bool :=
  c == ' ' || c == '\t' || c == '\n' || c == '\r' || c == '\x0b' || c == '\x0c'

/-- `str.lower()` (ASCII). -/
def pyLower (s : String) : String := ⟨s.toList.map Char.toLower⟩

/-- `str.strip()`. -/
def pyStrip (s : String) : String :=
  ⟨((s.toList.dropWhile isPySpace).reverse.dropWhile isPySpace).reverse⟩

/-- Boolean list-prefix test. -/
def listPrefixB : List Char → List Char → Bool
  | [], _ => true
  | _ :: _, [] => false
  | a :: as, b :: bs => a == b && listPrefixB as bs

/-- Boolean list-infix test (is `needle` a contiguous substring?). -/
def listInfixB (needle : List Char) : List Char → Bool
  | [] => needle.isEmpty
  | c :: rest => listPrefixB needle (c :: rest) || listInfixB needle rest

/-- Python `needle in hay` on strings. -/
def pyIn (needle hay : String) : Bool := listInfixB needle.toList hay.toList

/-! ### Value universe and slot maps -/

/-- Scalar JSON-ish values appearing in slot maps. -/
inductive Scalar where
  | sStr (s : String)
  | sInt (n : Int)
  | sBool (b : Bool)
  | sNone
deriving DecidableEq, Repr

/-- Values stored in a slot map: scalars, lists of strings or ints, and flat
objects (all value shapes the extractor and tools produce). -/
inductive Value where
  | scalar (s : Scalar)
  | strList (xs : List String)
  | intList (xs : List Int)
  | obj (fields : List (String × Scalar))
deriving DecidableEq, Repr

/-- Python truthiness of a scalar. -/
def Scalar.truthy : Scalar → Bool
  | .sStr s => !s.isEmpty
  | .sInt n => n != 0
  | .sBool b => b
  | .sNone => false

/-- Python truthiness of a value. -/
def Value.truthy : Value → Bool
  | .scalar s => s.truthy
  | .strList xs => !xs.isEmpty
  | .intList xs => !xs.isEmpty
  | .obj fs => !fs.isEmpty

/-- A Python dict `str -> value`: an ordered association list. -/
abbrev SlotMap : Type := List (String × Value)

/-- Dict lookup (first occurrence). -/
def SlotMap.find? : SlotMap → String → Option Value
  | [], _ => none
  | p :: rest, k => if p.1 == k then some p.2 else SlotMap.find? rest k

/-- Dict assignment `d[k] = v`: replace the first binding of `k` in place,
else append. -/
def SlotMap.insert : SlotMap → String → Value → SlotMap
  | [], k, v => [(k, v)]
  | p :: rest, k, v => if p.1 == k then (k, v) :: rest else p :: SlotMap.insert rest k v

/-- Dict update `base.update(m)` / `{**base, **m}`. -/
def SlotMap.update (base : SlotMap) : SlotMap → SlotMap
  | [] => base
  | p :: rest => SlotMap.update (SlotMap.insert base p.1 p.2) rest

/-- Last binding of `k` (what a sequence of dict assignments leaves). -/
def SlotMap.last? : SlotMap → String → Option Value
  | [], _ => none
  | p :: rest, k =>
    match SlotMap.last? rest k with
    | some v => some v
    | none => if p.1 == k then some p.2 else none

/-- `d.get(k, dflt)`. -/
def SlotMap.getD (m : SlotMap) (k : String) (dflt : Value) : Value :=
  (SlotMap.find? m k).getD dflt

/-- `bool(d.get(k))`. -/
def SlotMap.truthyAt (m : SlotMap) (k : String) : Bool :=
  match SlotMap.find? m k with
  | some v => v.truthy
  | none => false

/-- Keys of a slot map, in order. -/
def SlotMap.keys (m : SlotMap) : List String := m.map Prod.fst

/-- Lookup in a flat object (`obj.get(k)` defaulting to `None`). -/
def objGet : List (String × Scalar) → String → Scalar
  | [], _ => .sNone
  | p :: rest, k => if p.1 == k then p.2 else objGet rest k

/-- The object fields of a value (`{}` for non-objects; every value the code
feeds here is an object). -/
def Value.objFields : Value → List (String × Scalar)
  | .obj fs => fs
  | _ => []

/-- The string content of a value (`""` for non-strings). -/
def Value.strOf : Value → String
  | .scalar (.sStr s) => s
  | _ => ""

/-! ### Enums (`app/schemas/__init__.py`) -/

/-- `ConversationIntent` — the task kinds. -/
inductive ConversationIntent where
  | destination_recommendation
  | packing_list
  | attractions
  | general
deriving DecidableEq, Repr, Fintype

/-- `ConversationPhase` — the dialogue phases. -/
inductive ConversationPhase where
  | intent_detection
  | data_collection
  | processing
  | refinement
  | completed
deriving DecidableEq, Repr, Fintype

/-! ### Intent classifier (`ConversationStateManager.detect_intent_from_message`,
`app/schemas/state.py` lines 211-238) -/

def destinationKeywords : List String :=
  ["where to go", "destination", "recommend", "suggest a place",
   "where should i travel", "help me choose", "pick a destination"]

def packingKeywords : List String :=
  ["pack", "packing", "what to bring", "luggage", "suitcase",
   "backpack", "what should i take", "packing list"]

def attractionsKeywords : List String :=
  ["attractions", "things to do", "activities", "sightseeing",
   "visit", "see", "itinerary", "places to visit"]

/-- Does any keyword of the lexicon occur in the lowered message? -/
def lexiconHit (lexicon : List String) (message : String) : Bool :=
  lexicon.any (fun w => pyIn w (pyLower message))

/-- `detect_intent_from_message`: first lexicon hit in priority order
destination, packing, attractions; `general` when none matches. -/
def detect_intent_from_message (message : String) : ConversationIntent :=
  if lexiconHit destinationKeywords message then .destination_recommendation
  else if lexiconHit packingKeywords message then .packing_list
  else if lexiconHit attractionsKeywords message then .attractions
  else .general

/-! ### Cross-task transition arbitration
(`EnhancedOrchestrator._should_allow_intent_transition`,
`app/agents/orchestrator.py` lines 559-598) -/

def simple_responses : List String :=
  ["yes", "ok", "sure", "please", "go ahead", "continue", "proceed"]

/-- `current_service_continuations` (dict `.get` default `[]`). -/
def current_service_continuations : ConversationIntent → List String
  | .packing_list => ["generate", "create", "make", "show me", "give me"]
  | .destination_recommendation => ["recommend", "suggest", "find"]
  | .attractions => ["show", "tell me", "list"]
  | .general => []

/-- `service_names` (dict `.get` default `[]`). -/
def service_names : ConversationIntent → List String
  | .attractions => ["attractions", "activities", "things to do", "museums"]
  | .packing_list => ["packing", "pack", "luggage"]
  | .destination_recommendation => ["destination", "place", "where"]
  | .general => []

def transition_indicators : List String :=
  ["now", "also", "but", "however", "actually", "instead", "i would love"]

/-- `_should_allow_intent_transition(conversation, user_message, detected_intent)`,
with the conversation's current intent and phase passed explicitly. -/
def should_allow_intent_transition (current : ConversationIntent)
    (phase : ConversationPhase) (user_message : String)
    (detected : ConversationIntent) : Bool :=
  if simple_responses.contains (pyStrip (pyLower user_message)) then false
  else if (current_service_continuations current).any
            (fun w => pyIn w (pyLower user_message))
          && !((service_names detected).any (fun w => pyIn w (pyLower user_message)))
  then false
  else
    transition_indicators.any (fun w => pyIn w (pyLower user_message))
    || (phase == .completed || phase == .refinement)

/-! ### Intent update of one turn (`EnhancedOrchestrator.process_user_message`,
lines 48-100, projected onto the session's current intent)

`process_user_message` first checks for an intent transition (before
validation); both transition subhandlers (`_handle_natural_service_transition`
line 423, `_handle_mid_conversation_intent_change` line 494) set the session's
intent to the detected one.  Without a transition, a failed validation returns
without touching the session; with a `general` current intent
`_handle_intent_detection` re-detects the same message and adopts the result
when it is not `general`; every structured phase handler leaves the intent
unchanged. `valOk` is the validator's verdict (an external collaborator). -/
def next_intent (valOk : Bool) (current : ConversationIntent)
    (phase : ConversationPhase) (message : String) : ConversationIntent :=
  let detected := detect_intent_from_message message
  if detected ≠ current ∧ detected ≠ .general
     ∧ should_allow_intent_transition current phase message detected then
    detected
  else if !valOk then current
  else if current = .general then
    (if detected ≠ .general then detected else .general)
  else current

/-! ### Traveler-count regexes (`DataExtractor._extract_travelers`,
`app/agents/data_extractor.py` lines 227-269)

The five numeric patterns have the shape digits, whitespace, literal word;
their character classes are disjoint, so greedy matching needs no
backtracking and `re.search` is: leftmost start position at which the
maximal digit run is followed by at least one whitespace character and the
literal. -/

def natOfDigits (ds : List Char) : Nat :=
  ds.foldl (fun n c => n * 10 + (c.toNat - 48)) 0

/-- Match `(\d+)\s+word` at the start of `s`, returning the captured number. -/
def tryNumWordAt (word : List Char) (s : List Char) : Option Nat :=
  let ds := s.takeWhile Char.isDigit
  if ds.isEmpty then none
  else
    let r1 := s.dropWhile Char.isDigit
    if (r1.takeWhile isPySpace).isEmpty then none
    else if listPrefixB word (r1.dropWhile isPySpace) then some (natOfDigits ds)
    else none

/-- `re.search` capture: try `f` at every suffix, leftmost first. -/
def searchCapture (f : List Char → Option Nat) : List Char → Option Nat
  | [] => f []
  | c :: rest =>
    match f (c :: rest) with
    | some n => some n
    | none => searchCapture f rest

/-- `re.search` existence: does `p` match at some suffix? -/
def searchAt (p : List Char → Bool) : List Char → Bool
  | [] => p []
  | c :: rest => p (c :: rest) || searchAt p rest

/-- `with\s+(?:my\s+)?friend` matched at the start of `s` (the optional
`my\s+` group is tried first, then dropped, as the regex engine does). -/
def tryWithFriendAt (s : List Char) : Bool :=
  listPrefixB "with".toList s &&
    (let r1 := s.drop 4
     !(r1.takeWhile isPySpace).isEmpty &&
       (let r2 := r1.dropWhile isPySpace
        (listPrefixB "my".toList r2 &&
           (let r3 := r2.drop 2
            !(r3.takeWhile isPySpace).isEmpty &&
              listPrefixB "friend".toList (r3.dropWhile isPySpace)))
        || listPrefixB "friend".toList r2))

/-- `with\s+friends` matched at the start of `s`. -/
def tryWithFriendsAt (s : List Char) : Bool :=
  listPrefixB "with".toList s &&
    (let r1 := s.drop 4
     !(r1.takeWhile isPySpace).isEmpty &&
       listPrefixB "friends".toList (r1.dropWhile isPySpace))

/-- `with\s+(\d+)\s+friends?` matched at the start of `s`. -/
def tryWithNumFriendsAt (s : List Char) : Option Nat :=
  if listPrefixB "with".toList s then
    let r1 := s.drop 4
    if (r1.takeWhile isPySpace).isEmpty then none
    else
      let r2 := r1.dropWhile isPySpace
      let ds := r2.takeWhile Char.isDigit
      if ds.isEmpty then none
      else
        let r3 := r2.dropWhile Char.isDigit
        if (r3.takeWhile isPySpace).isEmpty then none
        else if listPrefixB "friend".toList (r3.dropWhile isPySpace) then
          some (natOfDigits ds)
        else none
  else none

/-- `_extract_travelers`: the final `(adults, kids)` pair.  `adults` starts at
1, is bumped to 2 / 3 by the friend-mention regexes, and is then overwritten
by the numeric patterns in their loop order (`with N friends?`, `N people`,
`N adults?`, `N kids?`, `N children`), later assignments winning. -/
def travelersCalc (message : String) : Nat × Nat :=
  let ml := (pyLower message).toList
  let adults0 : Nat :=
    if searchAt tryWithFriendAt ml then 2
    else if searchAt tryWithFriendsAt ml then 3
    else 1
  let numFriends := searchCapture tryWithNumFriendsAt ml
  let numPeople := searchCapture (tryNumWordAt "people".toList) ml
  let numAdults := searchCapture (tryNumWordAt "adult".toList) ml
  let numKids := searchCapture (tryNumWordAt "kid".toList) ml
  let numChildren := searchCapture (tryNumWordAt "children".toList) ml
  let adults :=
    match numAdults with
    | some n => n
    | none =>
      match numPeople with
      | some n => n
      | none =>
        match numFriends with
        | some n => n + 1
        | none => adults0
  let kids :=
    match numChildren with
    | some n => n
    | none => match numKids with | some n => n | none => 0
  (adults, kids)

/-- The dict `{"adults": adults, "kids": kids}` returned by
`_extract_travelers` (always non-empty, hence truthy). -/
def travelersValue (message : String) : Value :=
  .obj [("adults", .sInt (travelersCalc message).1),
        ("kids", .sInt (travelersCalc message).2)]

/-- No traveler regex matches the message at all (so the defaults
`adults = 1, kids = 0` survive). -/
def noTravelerSignal (message : String) : Bool :=
  let ml := (pyLower message).toList
  !(searchAt tryWithFriendAt ml) && !(searchAt tryWithFriendsAt ml)
  && (searchCapture tryWithNumFriendsAt ml).isNone
  && (searchCapture (tryNumWordAt "people".toList) ml).isNone
  && (searchCapture (tryNumWordAt "adult".toList) ml).isNone
  && (searchCapture (tryNumWordAt "kid".toList) ml).isNone
  && (searchCapture (tryNumWordAt "children".toList) ml).isNone


/-! ### Keyword-table extractors (`_extract_activities` lines 271-295,
`_extract_accommodation` lines 297-313, `_extract_user_preferences`
lines 315-345) -/

def activity_keywords : List (String × List String) :=
  [("sightseeing", ["sightseeing", "sight seeing", "touring", "exploring"]),
   ("museums", ["museum", "museums", "gallery", "galleries"]),
   ("historical", ["historical", "history", "historic sites", "monuments"]),
   ("temples", ["temple", "temples", "shrine", "shrines", "religious sites"]),
   ("shopping", ["shopping", "markets", "boutiques"]),
   ("dining", ["dining", "restaurants", "food", "cuisine"]),
   ("nightlife", ["nightlife", "bars", "clubs", "entertainment"]),
   ("nature", ["nature", "parks", "hiking", "outdoor"]),
   ("beaches", ["beach", "beaches", "swimming", "seaside"]),
   ("business", ["business", "work", "conference", "meeting"])]

/-- `_extract_activities`: every table row with a keyword hit, in table order. -/
def extractActivities (message : String) : List String :=
  (activity_keywords.filter
    (fun row => row.2.any (fun kw => pyIn kw (pyLower message)))).map Prod.fst

def accommodation_keywords : List (String × List String) :=
  [("hotel", ["hotel", "hotels"]),
   ("hostel", ["hostel", "hostels"]),
   ("airbnb", ["airbnb", "apartment", "rental"]),
   ("camping", ["camping", "tent", "campsite"]),
   ("resort", ["resort", "resorts"])]

/-- `_extract_accommodation`: the first table row with a keyword hit. -/
def extractAccommodation (message : String) : Option String :=
  (accommodation_keywords.find?
    (fun row => row.2.any (fun kw => pyIn kw (pyLower message)))).map Prod.fst

def preference_keywords : List (String × List String) :=
  [("romantic", ["romantic", "romance", "honeymoon", "anniversary", "couple"]),
   ("luxury", ["luxury", "luxurious", "high-end", "upscale", "premium", "five-star"]),
   ("budget", ["budget", "cheap", "affordable", "low-cost", "backpacking"]),
   ("adventure", ["adventure", "adventurous", "adrenaline", "extreme", "outdoors"]),
   ("cultural", ["cultural", "culture", "traditional", "historic", "heritage"]),
   ("relaxing", ["relaxing", "peaceful", "tranquil", "calm", "spa", "wellness"]),
   ("family-friendly", ["family-friendly", "family", "kids", "children"]),
   ("beaches", ["beach", "beaches", "seaside", "coastal", "ocean", "sea"]),
   ("mountains", ["mountain", "mountains", "hiking", "alpine", "peaks"]),
   ("urban", ["urban", "city", "metropolitan", "cosmopolitan"]),
   ("nature", ["nature", "natural", "wildlife", "parks", "outdoor"]),
   ("nightlife", ["nightlife", "bars", "clubs", "entertainment"]),
   ("food", ["food", "cuisine", "culinary", "dining", "gastronomic"]),
   ("art", ["art", "artistic", "museums", "galleries", "creative"]),
   ("warm", ["warm", "hot", "tropical", "sunny"]),
   ("cool", ["cool", "cold", "cooler", "moderate"])]

/-- `_extract_user_preferences`: every table row with a keyword hit. -/
def extractUserPreferences (message : String) : List String :=
  (preference_keywords.filter
    (fun row => row.2.any (fun kw => pyIn kw (pyLower message)))).map Prod.fst

/-! ### Oracle parameters for the heuristic sub-extractors and the LLM

`_extract_destination`, `_extract_duration` and `_extract_family_composition`
are regex heuristics none of the claims depend on; `_extract_interests`
additionally returns `list(set(...))`, whose order depends on Python's
randomized string hashing.  They are therefore taken as parameters, with
their result key sets and the surrounding truthiness checks embedded
exactly; the theorems hold for every behaviour of these parameters.
`llmField` maps a field name and the user message to the parsed value of
one targeted LLM completion (`None` models an unparsable reply, the
exception models a raised one — both absorbed by `_extract_field_with_llm`). -/
structure ExtractorOracles where
  destExtract : String → Option String
  durExtract : String → Option (List (String × Scalar))
  famComp : String → Option String
  famNames : String → Option (List String)
  famAges : String → Option (List Int)
  interestsExtract : String → List String
  llmField : String → String → Except Unit (Option Value)

/-! ### `_extract_with_patterns` (lines 57-123), stage by stage -/

def insDestination (o : ExtractorOracles) (message : String) (m : SlotMap) : SlotMap :=
  match o.destExtract message with
  | some d => if !d.isEmpty then SlotMap.insert m "destination" (.scalar (.sStr d)) else m
  | none => m

def insDateRange (o : ExtractorOracles) (message : String) (m : SlotMap) : SlotMap :=
  match o.durExtract message with
  | some dr => if !dr.isEmpty then SlotMap.insert m "date_range" (.obj dr) else m
  | none => m

def insTravelers (message : String) (m : SlotMap) : SlotMap :=
  SlotMap.insert m "travelers" (travelersValue message)

def insActivities (message : String) (m : SlotMap) : SlotMap :=
  let acts := extractActivities message
  if !acts.isEmpty then SlotMap.insert m "activities_planned" (.strList acts) else m

def insFamily (o : ExtractorOracles) (message : String) (m : SlotMap) : SlotMap :=
  let m1 := match o.famComp message with
    | some fc => SlotMap.insert m "family_composition" (.scalar (.sStr fc))
    | none => m
  let m2 := match o.famNames message with
    | some ns => SlotMap.insert m1 "names" (.strList ns)
    | none => m1
  match o.famAges message with
  | some ags => SlotMap.insert m2 "ages" (.intList ags)
  | none => m2

def insInterests (o : ExtractorOracles) (message : String) (m : SlotMap) : SlotMap :=
  let ints := o.interestsExtract message
  if !ints.isEmpty then SlotMap.insert m "interests" (.strList ints) else m

def insUserPrefs (message : String) (intent : ConversationIntent) (m : SlotMap) : SlotMap :=
  if intent = .destination_recommendation then
    let prefs := extractUserPreferences message
    if !prefs.isEmpty then SlotMap.insert m "user_preferences" (.strList prefs) else m
  else m

def insAccommodation (message : String) (m : SlotMap) : SlotMap :=
  match extractAccommodation message with
  | some a => SlotMap.insert m "accommodation_type" (.scalar (.sStr a))
  | none => m

def internationalCountries : List String :=
  ["rome", "italy", "paris", "france", "tokyo", "japan"]

/-- The packing-intent defaults (lines 109-121): `is_international`,
`requires_flight` (read back from the dict with default `True`) and
`has_laundry` when the accommodation is a hotel. -/
def insPackingDefaults (message : String) (intent : ConversationIntent)
    (m : SlotMap) : SlotMap :=
  if intent = .packing_list then
    let ml := pyLower message
    let isIntl := pyIn "international" ml
      || internationalCountries.any (fun c => pyIn c ml)
    let m1 := SlotMap.insert m "is_international" (.scalar (.sBool isIntl))
    let m2 := SlotMap.insert m1 "requires_flight"
      (SlotMap.getD m1 "is_international" (.scalar (.sBool true)))
    if SlotMap.getD m2 "accommodation_type" (.scalar .sNone)
        = .scalar (.sStr "hotel") then
      SlotMap.insert m2 "has_laundry" (.scalar (.sBool true))
    else m2
  else m

/-- `_extract_with_patterns`: the stages in source order. -/
def extract_with_patterns (o : ExtractorOracles) (message : String)
    (intent : ConversationIntent) : SlotMap :=
  insPackingDefaults message intent
    (insAccommodation message
      (insUserPrefs message intent
        (insInterests o message
          (insFamily o message
            (insActivities message
              (insTravelers message
                (insDateRange o message
                  (insDestination o message []))))))))

/-! ### Critical-field tables and missing-data checks
(`_get_missing_critical_data_from_extraction` lines 347-379,
`get_missing_critical_slots` lines 606-637) -/

/-- `critical_fields` table of `_get_missing_critical_data_from_extraction`
(`.get(intent, [])`). -/
def critical_fields : ConversationIntent → List String
  | .destination_recommendation => ["user_preferences"]
  | .packing_list => ["destination", "date_range", "travelers"]
  | .attractions => ["destination"]
  | .general => []

def suspiciousDestinationWords : List String :=
  ["looking for", "activities", "outdoor", "nature spots", "near"]

/-- `len(s.split())`: number of maximal whitespace-free runs. -/
def countWords (s : List Char) : Nat :=
  (List.zip (true :: s.map isPySpace) (s.map isPySpace)).countP
    (fun p => p.1 && !p.2)

/-- The suspicious-destination test of lines 375-376. -/
def destinationSuspicious (destination : String) : Bool :=
  decide (4 < countWords destination.toList)
    || suspiciousDestinationWords.any (fun w => pyIn w (pyLower destination))

/-- Body of the per-field loop of `_get_missing_critical_data_from_extraction`:
is `field` missing (or suspicious) in the pattern-extraction result?
Note this variant accepts `month` / `season` as date evidence. -/
def fieldMissingFromExtraction (extracted : SlotMap) (field : String) : Bool :=
  match SlotMap.find? extracted field with
  | none => true
  | some v =>
    if !v.truthy then true
    else if field == "date_range" then
      let dr := (SlotMap.getD extracted "date_range" (.obj [])).objFields
      !((objGet dr "start").truthy || (objGet dr "end").truthy
        || (objGet dr "duration_days").truthy || (objGet dr "month").truthy
        || (objGet dr "season").truthy)
    else if field == "destination" then
      destinationSuspicious (SlotMap.getD extracted "destination" (.scalar (.sStr ""))).strOf
    else false

def get_missing_critical_data_from_extraction (extracted : SlotMap)
    (intent : ConversationIntent) : List String :=
  (critical_fields intent).filter (fieldMissingFromExtraction extracted)

/-- `critical_slots` table of `get_missing_critical_slots` (a second,
identical dict in the source). -/
def critical_slots : ConversationIntent → List String
  | .destination_recommendation => ["user_preferences"]
  | .packing_list => ["destination", "date_range", "travelers"]
  | .attractions => ["destination"]
  | .general => []

/-- Body of the per-slot loop of `get_missing_critical_slots` (lines 628-635).
Note this variant accepts only `start` / `end` / `duration_days` / `flexible`
as date evidence — not `month` or `season`. -/
def slotMissing (data : SlotMap) (slot : String) : Bool :=
  match SlotMap.find? data slot with
  | none => true
  | some v =>
    if !v.truthy then true
    else if slot == "date_range" then
      let dr := (SlotMap.getD data "date_range" (.obj [])).objFields
      !((objGet dr "start").truthy || (objGet dr "end").truthy
        || (objGet dr "duration_days").truthy || (objGet dr "flexible").truthy)
    else false

/-- `DataExtractor.get_missing_critical_slots` (lines 606-637). -/
def get_missing_critical_slots (intent : ConversationIntent)
    (data : SlotMap) : List String :=
  (critical_slots intent).filter (slotMissing data)

/-! ### LLM fallback (`_extract_with_llm_fallback` lines 381-405,
`_extract_field_with_llm` lines 407-518) -/

/-- The fields for which a targeted prompt exists. -/
def llm_prompt_fields : List String :=
  ["user_preferences", "destination", "date_range", "travelers"]

/-- The per-field `isinstance` + truthiness acceptance tests of lines 497-512. -/
def llmShapeOk (field : String) (v : Value) : Bool :=
  if field == "user_preferences" then
    match v with | .strList xs => !xs.isEmpty | _ => false
  else if field == "destination" then
    match v with | .scalar (.sStr s) => !s.isEmpty | _ => false
  else if field == "date_range" then
    match v with | .obj fs => !fs.isEmpty | _ => false
  else if field == "travelers" then
    match v with | .obj fs => !fs.isEmpty | _ => false
  else false

/-- `_extract_field_with_llm`: one targeted completion; an unknown field, a
raised exception, an unparsable reply, or a wrongly-shaped value all yield
`{}` (never an error). -/
def extract_field_with_llm (llm : String → String → Except Unit (Option Value))
    (message field : String) : SlotMap :=
  if llm_prompt_fields.contains field then
    match llm field message with
    | .error _ => []
    | .ok none => []
    | .ok (some v) => if llmShapeOk field v then [(field, v)] else []
  else []

/-- `_extract_with_llm_fallback`: one completion per missing field, results
merged into one dict. -/
def extract_with_llm_fallback (llm : String → String → Except Unit (Option Value))
    (message : String) (missing : List String) : SlotMap :=
  if missing.isEmpty then []
  else missing.foldl
    (fun acc f => SlotMap.update acc (extract_field_with_llm llm message f)) []

/-! ### `extract_travel_data` (lines 21-55) -/

/-- The merged extraction dict built inside the `try` block: pattern results,
then LLM-fallback results for the critical fields the patterns missed
(`extracted.update(llm_extracted)`, LLM winning on collisions). -/
def extracted_merge (o : ExtractorOracles) (message : String)
    (intent : ConversationIntent) : SlotMap :=
  let extracted := extract_with_patterns o message intent
  let missing := get_missing_critical_data_from_extraction extracted intent
  if !missing.isEmpty then
    let llmE := extract_with_llm_fallback o.llmField message missing
    if !llmE.isEmpty then SlotMap.update extracted llmE else extracted
  else extracted

/-- The `try` block of `extract_travel_data`.  The embedded sub-extractors are
total and both LLM helpers swallow their own exceptions, so `fault` models a
runtime exception raised at an arbitrary point inside the block (the
condition the source's `except` clause guards against). -/
def extract_body (o : ExtractorOracles) (fault : Option String)
    (message : String) (intent : ConversationIntent) (existing : SlotMap) :
    Except String SlotMap := do
  if let some e := fault then throw e
  pure (SlotMap.update existing (extracted_merge o message intent))

/-- `DataExtractor.extract_travel_data`: run the `try` block; on any
exception return the prior accumulated data unchanged. -/
def extract_travel_data (o : ExtractorOracles) (fault : Option String)
    (message : String) (intent : ConversationIntent) (existing : SlotMap) :
    SlotMap :=
  match extract_body o fault message intent existing with
  | .ok r => r
  | .error _ => existing

/-! ### Tool-call results and the packing pipeline
(`EnhancedOrchestrator._execute_packing_tools`, orchestrator lines 857-966)

The domain tools are external collaborators; a `ToolOutcome` is the behaviour
of one call: a successful `ToolCallResult`, an unsuccessful one, or a raised
exception (whose `str(e)` is the carried string). -/

inductive ToolOutcome where
  | ok (data : SlotMap) (cached : Bool)
  | fail (err : String)
  | exn (err : String)
deriving DecidableEq, Repr

/-- One entry of the result list the pipeline builds (absent dict keys are
`none`). -/
structure ToolResult where
  tool_name : String
  success : Bool
  data : Option SlotMap
  error : Option String
  cached : Option Bool
deriving DecidableEq, Repr

/-- Lookup with an explicit default in a flat object. -/
def objGetD (fs : List (String × Scalar)) (k : String) (dflt : Scalar) : Scalar :=
  match fs.find? (fun p => p.1 == k) with
  | some p => p.2
  | none => dflt

/-- The `weather_data` fallback of lines 905-908 (weather tool returned
`success=False`). -/
def moderateFallbackWithSummary : SlotMap :=
  [("avg_high", .scalar (.sInt 20)), ("avg_low", .scalar (.sInt 10)),
   ("max_precip_prob", .scalar (.sInt 30)),
   ("summary", .scalar (.sStr "Moderate conditions expected"))]

/-- The `weather_data` fallback of line 913 (weather block raised). -/
def moderateFallback : SlotMap :=
  [("avg_high", .scalar (.sInt 20)), ("avg_low", .scalar (.sInt 10)),
   ("max_precip_prob", .scalar (.sInt 30))]

/-- The parameters handed to `packing_tool.execute` (lines 942-952). -/
structure PackingArgs where
  trip_length_days : Scalar
  weather_data : SlotMap
  activities : Value
  travelers : Value
  accommodation_type : Value
  has_laundry : Value
  is_international : Value
  requires_flight : Value
  requires_accommodation_booking : Value
deriving DecidableEq, Repr

def mkPackingArgs (data : SlotMap) (weather_data : SlotMap) : PackingArgs :=
  ⟨objGetD (SlotMap.getD data "date_range" (.obj [])).objFields "duration_days" (.sInt 7),
   weather_data,
   SlotMap.getD data "activities_planned" (.strList []),
   SlotMap.getD data "travelers" (.obj [("adults", .sInt 1), ("kids", .sInt 0)]),
   SlotMap.getD data "accommodation_type" (.scalar (.sStr "hotel")),
   SlotMap.getD data "has_laundry" (.scalar (.sBool false)),
   SlotMap.getD data "is_international" (.scalar (.sBool true)),
   SlotMap.getD data "requires_flight" (.scalar (.sBool true)),
   SlotMap.getD data "requires_accommodation_booking" (.scalar (.sBool true))⟩

/-- The weather `try` block (lines 862-913): produces the results it appends
and the `weather_data` value left for the packing call.  `wc` is the outcome
of the date derivation plus `weather_tool.execute` (an exception anywhere in
the block, e.g. from `datetime.fromisoformat`, is the `exn` case). -/
def weatherStep (hasDest : Bool) (wc : ToolOutcome) : List ToolResult × SlotMap :=
  if hasDest then
    match wc with
    | .ok d c => ([⟨"weather", true, some d, none, some c⟩], d)
    | .fail e => ([⟨"weather", false, none, some e, none⟩], moderateFallbackWithSummary)
    | .exn e => ([⟨"weather", false, none, some e, none⟩], moderateFallback)
  else ([], [])

/-- The city-info `try` block (lines 915-931). -/
def cityStep (hasDest : Bool) (cc : ToolOutcome) : List ToolResult :=
  if hasDest then
    match cc with
    | .ok d c => [⟨"city_info", true, some d, none, some c⟩]
    | .fail e => [⟨"city_info", false, none, some e, some false⟩]
    | .exn e => [⟨"city_info", false, none, some e, none⟩]
  else []

/-- The packing `try` block (lines 933-963). -/
def packingStep (pc : PackingArgs → ToolOutcome) (args : PackingArgs) : ToolResult :=
  match pc args with
  | .ok d _ => ⟨"packing", true, some d, none, none⟩
  | .fail e => ⟨"packing", false, none, some e, none⟩
  | .exn e => ⟨"packing", false, none, some e, none⟩

/-- `_execute_packing_tools`. -/
def execute_packing_tools (wc cc : ToolOutcome) (pc : PackingArgs → ToolOutcome)
    (data : SlotMap) : List ToolResult :=
  let hasDest := SlotMap.truthyAt data "destination"
  let ws := weatherStep hasDest wc
  ws.1 ++ cityStep hasDest cc ++ [packingStep pc (mkPackingArgs data ws.2)]

/-! ### Internal reasoning (`app/schemas/internal.py`) -/

/-- `InternalScratchpad`, restricted to the fields `create_scratchpad`
populates (the remaining fields are initialized empty and are irrelevant to
the embedded control flow). -/
structure InternalScratchpad where
  goals : List String
  user_constraints : List String
  steps : List String
deriving DecidableEq, Repr

/-- Best-effort `str()` rendering for f-string interpolation (display only;
no claim depends on these strings). -/
def Scalar.pyStr : Scalar → String
  | .sStr s => s
  | .sInt n => toString n
  | .sBool b => if b then "True" else "False"
  | .sNone => "None"

def Value.pyStr : Value → String
  | .scalar s => s.pyStr
  | .strList xs => "[" ++ String.intercalate ", " xs ++ "]"
  | .intList xs => "[" ++ String.intercalate ", " (xs.map toString) ++ "]"
  | .obj fs => "[" ++ String.intercalate ", " (fs.map Prod.fst) ++ "]"

/-- `travelers.get("kids", 0) > 0` (Python bools count as ints). -/
def scalarGtZero : Scalar → Bool
  | .sInt n => decide (0 < n)
  | .sBool b => b
  | _ => false

/-- `ReasoningEngine._extract_constraints` (internal.py lines 112-135). -/
def extract_constraints (user_data : SlotMap) : List String :=
  (if SlotMap.truthyAt user_data "budget_band" then
    ["Budget: " ++ (SlotMap.getD user_data "budget_band" (.scalar .sNone)).pyStr]
   else [])
  ++ (if SlotMap.truthyAt user_data "date_range" then
      let dr := (SlotMap.getD user_data "date_range" (.obj [])).objFields
      (if (objGet dr "duration_days").truthy then
        ["Trip length: " ++ (objGet dr "duration_days").pyStr ++ " days"]
       else [])
      ++ (if !(objGetD dr "flexible" (.sBool true)).truthy then
            ["Fixed travel dates"] else [])
     else [])
  ++ (if SlotMap.truthyAt user_data "travelers" then
      let tv := (SlotMap.getD user_data "travelers" (.obj [])).objFields
      (if scalarGtZero (objGetD tv "kids" (.sInt 0)) then
        ["Traveling with children"] else [])
     else [])
  ++ (if SlotMap.truthyAt user_data "accommodation_type" then
      ["Accommodation: "
        ++ (SlotMap.getD user_data "accommodation_type" (.scalar .sNone)).pyStr]
     else [])

def scratchpad_goals : ConversationIntent → List String
  | .packing_list =>
    ["Create comprehensive packing list", "Consider weather conditions",
     "Account for activities and trip length", "Optimize for luggage constraints"]
  | .destination_recommendation =>
    ["Find destinations matching user preferences",
     "Consider budget and timing constraints", "Verify travel feasibility",
     "Provide diverse options"]
  | .attractions =>
    ["Identify relevant attractions", "Consider time constraints",
     "Plan logical routing", "Include weather contingencies"]
  | .general => []

/-- `ReasoningEngine._plan_steps` (the `user_data` argument is unused in the
source). -/
def plan_steps : ConversationIntent → List String
  | .packing_list =>
    ["1. Get weather forecast for destination and dates",
     "2. Analyze planned activities and requirements",
     "3. Consider trip length and laundry availability",
     "4. Generate category-based packing list",
     "5. Add weather-specific items",
     "6. Quality check for completeness"]
  | .destination_recommendation =>
    ["1. Analyze user preferences and constraints",
     "2. Research potential destinations",
     "3. Check weather and seasonal considerations",
     "4. Evaluate budget feasibility",
     "5. Rank options by match quality",
     "6. Prepare recommendations with rationale"]
  | .attractions =>
    ["1. Get destination information and highlights",
     "2. Check weather forecast for visit period",
     "3. Identify attractions matching user interests",
     "4. Plan logical daily itineraries",
     "5. Add indoor backup options",
     "6. Validate time feasibility"]
  | .general => []

/-- `ReasoningEngine.create_scratchpad` (internal.py lines 63-110):
`None` exactly for the general intent. -/
def create_scratchpad (intent : ConversationIntent) (user_data : SlotMap) :
    Option InternalScratchpad :=
  if intent = .general then none
  else some ⟨scratchpad_goals intent, extract_constraints user_data, plan_steps intent⟩

/-- `QualityCheck` (internal.py lines 19-25). -/
structure QualityCheck where
  check_name : String
  question : String
  passed : Option Bool
  reason : Option String
  auto_fix_action : Option String
deriving DecidableEq, Repr

/-- `ReasoningEngine.create_quality_checks` (internal.py lines 231-279):
two universal checks plus the task-specific ones. -/
def create_quality_checks (intent : ConversationIntent) : List QualityCheck :=
  [⟨"constraint_compliance", "Have all user constraints been considered?",
    none, none, some "Review and adjust recommendations"⟩,
   ⟨"weather_conflicts", "Are there any weather-related conflicts?",
    none, none, some "Add weather contingencies"⟩]
  ++ (if intent = .packing_list then
      [⟨"activity_coverage", "Does packing list cover all planned activities?",
        none, none, some "Add activity-specific items"⟩,
       ⟨"weather_preparation", "Is user prepared for weather conditions?",
        none, none, some "Add weather-appropriate items"⟩]
     else if intent = .attractions then
      [⟨"time_feasibility", "Is the itinerary realistic for the time available?",
        none, none, some "Reduce activities or extend timeframes"⟩,
       ⟨"indoor_backups", "Are there indoor alternatives for rainy days?",
        none, none, some "Add indoor attractions and activities"⟩]
     else [])

/-! ### Processing handler and quality gate (orchestrator lines 780-855 and
1434-1526) -/

/-- `AgentResponse` (orchestrator lines 25-37); unset constructor arguments
are `none` / `[]`. -/
structure AgentResponse where
  message : String
  next_phase : Option ConversationPhase
  collected_data : SlotMap
  tool_outputs : List ToolResult
deriving DecidableEq, Repr

/-- `intent.value.replace("_", " ").title().lower()`. -/
def service_name_lower : ConversationIntent → String
  | .destination_recommendation => "destination recommendation"
  | .packing_list => "packing list"
  | .attractions => "attractions"
  | .general => "general"

/-- The fallback response text of lines 844-852 (apology plus the static
recommendation list). -/
def processing_fallback_message (intent : ConversationIntent) (e : String) : String :=
  "I encountered an issue while generating your " ++ service_name_lower intent
    ++ ": " ++ e
    ++ "\n\nLet me provide general recommendations based on your requirements.\n\n"
    ++ "For your 5-day Tokyo trip, I recommend:\n"
    ++ "• Comfortable walking shoes (temple visits)\n"
    ++ "• Light layers (spring weather)\n"
    ++ "• Respectful attire for temples\n"
    ++ "• Universal adapter for electronics\n\n"
    ++ "Would you like me to try again or make any adjustments?"

/-- `_handle_processing_phase` (lines 780-855).  `body` is the outcome of the
whole `try` block: the intent-dispatched tool execution (for the packing
intent, `execute_packing_tools` above) followed by `_format_tool_results`,
yielding the result list and the formatted message, or the exception that
escaped it. -/
def handle_processing_phase (intent : ConversationIntent)
    (existing_data : SlotMap)
    (body : Except String (List ToolResult × String)) : AgentResponse :=
  match create_scratchpad intent existing_data with
  | none => ⟨"I\x27m processing your request...", some .refinement, [], []⟩
  | some _ =>
    match body with
    | .ok r => ⟨r.2, some .refinement, existing_data, r.1⟩
    | .error e =>
      ⟨processing_fallback_message intent e, some .refinement, existing_data, []⟩

/-- Python `x in collection` for the `activity_coverage` check.  A string
value is substring membership, lists and dicts are element / key membership;
a non-string scalar would raise `TypeError` in Python (no extraction path
stores one under `activities_planned`) and is mapped to `false` here — the
quality-gate theorem carries the corresponding safety hypothesis. -/
def pyContainsStr (v : Value) (needle : String) : Bool :=
  match v with
  | .strList xs => xs.contains needle
  | .intList _ => false
  | .obj fs => fs.any (fun p => p.1 == needle)
  | .scalar (.sStr s) => pyIn needle s
  | .scalar _ => false

/-- The `activities_planned` value cannot make Python's `in` raise. -/
def activitiesMembershipSafe (data : SlotMap) : Bool :=
  match SlotMap.find? data "activities_planned" with
  | some (.scalar (.sStr _)) => true
  | some (.scalar _) => false
  | _ => true

/-- A check with its simulated outcome filled in. -/
def setOutcome (c : QualityCheck) (ok : Bool) (reason : String) : QualityCheck :=
  ⟨c.check_name, c.question, some ok, some reason, c.auto_fix_action⟩

/-- One iteration of the check loop of `_run_pre_finalize_checks`
(lines 1465-1496); the accumulator is
(passed_checks, failed_checks, auto_fixes).  A check whose name matches no
branch (the attractions-specific ones) is left untouched. -/
def quality_check_step (data : SlotMap)
    (acc : List QualityCheck × List QualityCheck × List String)
    (c : QualityCheck) : List QualityCheck × List QualityCheck × List String :=
  if c.check_name == "weather_conflicts" then
    (acc.1 ++ [setOutcome c true "Weather appropriate for Tokyo in March"],
     acc.2.1, acc.2.2)
  else if c.check_name == "constraint_compliance" then
    (acc.1 ++ [setOutcome c true "All user constraints considered"],
     acc.2.1, acc.2.2)
  else if c.check_name == "activity_coverage" then
    let activities := SlotMap.getD data "activities_planned" (.strList [])
    if pyContainsStr activities "sightseeing" && pyContainsStr activities "temples" then
      (acc.1 ++ [setOutcome c true "Packing covers sightseeing and temple visits"],
       acc.2.1, acc.2.2)
    else
      (acc.1,
       acc.2.1 ++ [setOutcome c false "Missing activity-specific items"],
       acc.2.2 ++ ["Add comfortable walking shoes and respectful temple attire"])
  else if c.check_name == "weather_preparation" then
    (acc.1 ++ [setOutcome c true "March weather in Tokyo accounted for"],
     acc.2.1, acc.2.2)
  else acc

/-- The quality-check summary text of lines 1499-1507. -/
def check_summary_text
    (run : List QualityCheck × List QualityCheck × List String) : String :=
  "**Pre-finalize quality checks completed:**\n"
    ++ "✅ " ++ toString run.1.length ++ " checks passed\n"
    ++ (if !run.2.1.isEmpty then
        "⚠️ " ++ toString run.2.1.length ++ " checks need attention\n\n"
          ++ "**Auto-adjustments made:**\n"
          ++ String.join (run.2.2.map (fun f => "• " ++ f ++ "\n"))
          ++ "\n"
       else "")

/-- `_run_pre_finalize_checks` (lines 1434-1526): skip the checks entirely for
the general intent, otherwise run the simulated check battery; both paths end
with the phase forced to `completed`. -/
def run_pre_finalize_checks (intent : ConversationIntent)
    (existing_data : SlotMap) : AgentResponse :=
  match create_scratchpad intent existing_data with
  | none => ⟨"Great! Your request has been completed.", some .completed, [], []⟩
  | some _ =>
    let checks := create_quality_checks intent
    let run := checks.foldl (quality_check_step existing_data) ([], [], [])
    ⟨"Excellent! I\x27ve completed your trip planning with quality assurance.\n\n"
       ++ check_summary_text run
       ++ "Your personalized recommendations are ready! "
       ++ "I\x27ve considered all your requirements and made sure everything is optimized for your Tokyo trip.\n\n"
       ++ "Have a wonderful trip! Feel free to start a new conversation if you need help with anything else.",
     some .completed, existing_data, []⟩

/-! ### Concrete instances used by the theorems -/

/-- A `date_range` object holding exactly the keys selected by the six flags
(with representative truthy values). -/
def c2DateRange (s e d f m se : Bool) : List (String × Scalar) :=
  (if s then [("start", Scalar.sStr "2024-06-01")] else [])
  ++ (if e then [("end", Scalar.sStr "2024-06-08")] else [])
  ++ (if d then [("duration_days", Scalar.sInt 7)] else [])
  ++ (if f then [("flexible", Scalar.sBool true)] else [])
  ++ (if m then [("month", Scalar.sStr "June")] else [])
  ++ (if se then [("season", Scalar.sStr "Summer")] else [])

/-- Packing-task data with destination and travelers present and the
`date_range` object selected by the six flags. -/
def c2Data (s e d f m se : Bool) : SlotMap :=
  [("destination", .scalar (.sStr "Rome")),
   ("date_range", .obj (c2DateRange s e d f m se)),
   ("travelers", .obj [("adults", .sInt 2), ("kids", .sInt 0)])]

def c3Message : String := "show me attractions in Rome"

/-- Oracles on which every heuristic sub-extractor finds nothing and every
LLM call raises. -/
def noOracle : ExtractorOracles :=
  ⟨fun _ => none, fun _ => none, fun _ => none, fun _ => none, fun _ => none,
   fun _ => [], fun _ _ => .error ()⟩

/-- A prior accumulated map holding a confirmed destination. -/
def exC1 : SlotMap := [("destination", .scalar (.sStr "Rome"))]

/-- Did the tool call return successfully? -/
def ToolOutcome.succeeded : ToolOutcome → Bool
  | .ok _ _ => true
  | _ => false

/-- The `weather_data` value left behind by the weather block (given a
destination is present). -/
def weatherFallback (wc : ToolOutcome) : SlotMap := (weatherStep true wc).2

/-! ### Slot-map lemmas -/

theorem SlotMap.find?_insert_self (m : SlotMap) (k : String) (v : Value) :
    SlotMap.find? (SlotMap.insert m k v) k = some v := by
  induction m with
  | nil => simp [SlotMap.insert, SlotMap.find?]
  | cons p rest ih =>
    by_cases h : p.1 == k
    · simp [SlotMap.insert, SlotMap.find?, h]
    · simp [SlotMap.insert, SlotMap.find?, h, ih]

theorem SlotMap.find?_insert_ne (m : SlotMap) (k k' : String) (v : Value)
    (h : k ≠ k') : SlotMap.find? (SlotMap.insert m k' v) k = SlotMap.find? m k := by
  induction m with
  | nil =>
    simp only [SlotMap.insert, SlotMap.find?]
    have : (k' == k) = false := by simpa [beq_iff_eq] using fun he => h he.symm
    simp [this]
  | cons p rest ih =>
    by_cases hp : p.1 == k'
    · have hpk : p.1 = k' := by simpa [beq_iff_eq] using hp
      have : (k' == k) = false := by simpa [beq_iff_eq] using fun he => h he.symm
      simp [SlotMap.insert, SlotMap.find?, hp, hpk, this]
    · simp [SlotMap.insert, SlotMap.find?, hp, ih]

theorem SlotMap.find?_insert (m : SlotMap) (k k' : String) (v : Value) :
    SlotMap.find? (SlotMap.insert m k' v) k =
      if k = k' then some v else SlotMap.find? m k := by
  by_cases h : k = k'
  · subst h; simp [SlotMap.find?_insert_self]
  · simp [h, SlotMap.find?_insert_ne m k k' v h]

theorem SlotMap.find?_update (base : SlotMap) (m : SlotMap) (k : String) :
    SlotMap.find? (SlotMap.update base m) k =
      match SlotMap.last? m k with
      | some v => some v
      | none => SlotMap.find? base k := by
  induction m generalizing base with
  | nil => simp [SlotMap.update, SlotMap.last?]
  | cons p rest ih =>
    simp only [SlotMap.update, SlotMap.last?]
    rw [ih]
    cases hrest : SlotMap.last? rest k with
    | some v => simp
    | none =>
      by_cases hk : p.1 == k
      · have hpk : p.1 = k := by simpa [beq_iff_eq] using hk
        subst hpk
        simp [hk, SlotMap.find?_insert_self]
      · have hne : k ≠ p.1 := fun he => absurd (by simp [he]) hk
        simp [hk, SlotMap.find?_insert_ne base k p.1 p.2 hne]

theorem SlotMap.last?_none_of_not_mem (m : SlotMap) (k : String)
    (h : k ∉ SlotMap.keys m) : SlotMap.last? m k = none := by
  induction m with
  | nil => rfl
  | cons p rest ih =>
    simp only [SlotMap.keys, List.map_cons, List.mem_cons] at h
    push_neg at h
    have h2 : k ∉ SlotMap.keys rest := by simpa [SlotMap.keys] using h.2
    have hb : (p.1 == k) = false := by simpa [beq_iff_eq] using fun he => h.1 he.symm
    simp [SlotMap.last?, ih h2, hb]

theorem SlotMap.mem_keys_insert {m : SlotMap} {k k' : String} {v : Value}
    (h : k ∈ SlotMap.keys (SlotMap.insert m k' v)) : k = k' ∨ k ∈ SlotMap.keys m := by
  induction m with
  | nil => simpa [SlotMap.insert, SlotMap.keys] using h
  | cons p rest ih =>
    by_cases hp : p.1 == k'
    · simp only [SlotMap.insert, hp, if_pos] at h
      simp only [SlotMap.keys, List.map_cons, List.mem_cons] at h ⊢
      rcases h with h | h
      · exact Or.inl h
      · exact Or.inr (Or.inr h)
    · simp only [SlotMap.insert, hp, Bool.false_eq_true, if_false] at h
      simp only [SlotMap.keys, List.map_cons, List.mem_cons] at h ⊢
      rcases h with h | h
      · exact Or.inr (Or.inl h)
      · rcases ih (by simpa [SlotMap.keys] using h) with h' | h'
        · exact Or.inl h'
        · exact Or.inr (Or.inr (by simpa [SlotMap.keys] using h'))

theorem SlotMap.nodup_keys_insert (m : SlotMap) (k : String) (v : Value)
    (h : (SlotMap.keys m).Nodup) : (SlotMap.keys (SlotMap.insert m k v)).Nodup := by
  induction m with
  | nil => simp [SlotMap.insert, SlotMap.keys]
  | cons p rest ih =>
    simp only [SlotMap.keys, List.map_cons, List.nodup_cons] at h
    by_cases hp : p.1 == k
    · have hpk : p.1 = k := by simpa [beq_iff_eq] using hp
      simp only [SlotMap.insert, hp, if_pos, SlotMap.keys, List.map_cons, List.nodup_cons]
      exact ⟨by simpa [SlotMap.keys, hpk] using h.1, h.2⟩
    · simp only [SlotMap.insert, hp, Bool.false_eq_true, if_false,
        SlotMap.keys, List.map_cons, List.nodup_cons]
      refine ⟨fun hmem => ?_, ih h.2⟩
      rcases SlotMap.mem_keys_insert (by simpa [SlotMap.keys] using hmem) with h' | h'
      · exact absurd (by simp [h']) hp
      · exact absurd h' (by simpa [SlotMap.keys] using h.1)

theorem SlotMap.last?_eq_find? (m : SlotMap) (k : String)
    (h : (SlotMap.keys m).Nodup) : SlotMap.last? m k = SlotMap.find? m k := by
  induction m with
  | nil => rfl
  | cons p rest ih =>
    simp only [SlotMap.keys, List.map_cons, List.nodup_cons] at h
    by_cases hp : p.1 == k
    · have hpk : p.1 = k := by simpa [beq_iff_eq] using hp
      have hk : k ∉ SlotMap.keys rest := by simpa [SlotMap.keys, hpk] using h.1
      simp [SlotMap.last?, SlotMap.find?, hp, SlotMap.last?_none_of_not_mem rest k hk]
    · simp only [SlotMap.last?, SlotMap.find?, hp]
      rw [ih h.2]
      cases SlotMap.find? rest k <;> simp [hp]


theorem SlotMap.last?_insert_ne (m : SlotMap) (k k' : String) (v : Value)
    (h : k ≠ k') : SlotMap.last? (SlotMap.insert m k' v) k = SlotMap.last? m k := by
  have hb : (k' == k) = false := by simpa [beq_iff_eq] using fun he => h he.symm
  induction m with
  | nil => simp [SlotMap.insert, SlotMap.last?, hb]
  | cons p rest ih =>
    by_cases hp : p.1 == k'
    · have hpk : p.1 = k' := by simpa [beq_iff_eq] using hp
      simp [SlotMap.insert, SlotMap.last?, hp, hpk, hb]
    · simp only [SlotMap.insert, hp, Bool.false_eq_true, if_false, SlotMap.last?, ih]

theorem SlotMap.last?_update_of_none (a b : SlotMap) (k : String)
    (hb : SlotMap.last? b k = none) :
    SlotMap.last? (SlotMap.update a b) k = SlotMap.last? a k := by
  induction b generalizing a with
  | nil => rfl
  | cons p rest ih =>
    simp only [SlotMap.last?] at hb
    rcases hrest : SlotMap.last? rest k with _ | w
    · rw [hrest] at hb
      have hpk : (p.1 == k) = false := by
        by_cases hp : p.1 == k
        · simp [hp] at hb
        · simpa using hp
      have hne : k ≠ p.1 := by
        intro he; rw [he] at hpk; simp at hpk
      simp only [SlotMap.update]
      rw [ih _ hrest, SlotMap.last?_insert_ne a k p.1 p.2 hne]
    · rw [hrest] at hb; simp at hb

/-! ### Key discipline of the extraction stages -/

theorem find?_insDestination_ne (o : ExtractorOracles) (msg : String)
    (m : SlotMap) (k : String) (h : k ≠ "destination") :
    SlotMap.find? (insDestination o msg m) k = SlotMap.find? m k := by
  unfold insDestination
  cases o.destExtract msg with
  | none => rfl
  | some d =>
    by_cases hd : d.isEmpty <;> simp [hd, SlotMap.find?_insert_ne _ _ _ _ h]

theorem find?_insDateRange_ne (o : ExtractorOracles) (msg : String)
    (m : SlotMap) (k : String) (h : k ≠ "date_range") :
    SlotMap.find? (insDateRange o msg m) k = SlotMap.find? m k := by
  unfold insDateRange
  cases o.durExtract msg with
  | none => rfl
  | some dr =>
    by_cases hd : dr.isEmpty <;> simp [hd, SlotMap.find?_insert_ne _ _ _ _ h]

theorem find?_insActivities_ne (msg : String) (m : SlotMap) (k : String)
    (h : k ≠ "activities_planned") :
    SlotMap.find? (insActivities msg m) k = SlotMap.find? m k := by
  unfold insActivities
  by_cases ha : (extractActivities msg).isEmpty <;>
    simp [ha, SlotMap.find?_insert_ne _ _ _ _ h]

theorem find?_insFamily_ne (o : ExtractorOracles) (msg : String)
    (m : SlotMap) (k : String) (h1 : k ≠ "family_composition")
    (h2 : k ≠ "names") (h3 : k ≠ "ages") :
    SlotMap.find? (insFamily o msg m) k = SlotMap.find? m k := by
  unfold insFamily
  cases o.famComp msg <;> cases o.famNames msg <;> cases o.famAges msg <;>
    simp [SlotMap.find?_insert_ne _ _ _ _ h1, SlotMap.find?_insert_ne _ _ _ _ h2,
      SlotMap.find?_insert_ne _ _ _ _ h3]

theorem find?_insInterests_ne (o : ExtractorOracles) (msg : String)
    (m : SlotMap) (k : String) (h : k ≠ "interests") :
    SlotMap.find? (insInterests o msg m) k = SlotMap.find? m k := by
  unfold insInterests
  by_cases hi : (o.interestsExtract msg).isEmpty <;>
    simp [hi, SlotMap.find?_insert_ne _ _ _ _ h]

theorem find?_insUserPrefs_ne (msg : String) (intent : ConversationIntent)
    (m : SlotMap) (k : String) (h : k ≠ "user_preferences") :
    SlotMap.find? (insUserPrefs msg intent m) k = SlotMap.find? m k := by
  unfold insUserPrefs
  by_cases hi : intent = ConversationIntent.destination_recommendation
  · by_cases hp : (extractUserPreferences msg).isEmpty <;>
      simp [hi, hp, SlotMap.find?_insert_ne _ _ _ _ h]
  · simp [hi]

theorem find?_insAccommodation_ne (msg : String) (m : SlotMap) (k : String)
    (h : k ≠ "accommodation_type") :
    SlotMap.find? (insAccommodation msg m) k = SlotMap.find? m k := by
  unfold insAccommodation
  cases extractAccommodation msg <;>
    simp [SlotMap.find?_insert_ne _ _ _ _ h]

theorem find?_insPackingDefaults_ne (msg : String) (intent : ConversationIntent)
    (m : SlotMap) (k : String) (h1 : k ≠ "is_international")
    (h2 : k ≠ "requires_flight") (h3 : k ≠ "has_laundry") :
    SlotMap.find? (insPackingDefaults msg intent m) k = SlotMap.find? m k := by
  unfold insPackingDefaults
  by_cases hi : intent = ConversationIntent.packing_list
  · simp only [hi, if_pos]
    split
    · rw [SlotMap.find?_insert_ne _ _ _ _ h3, SlotMap.find?_insert_ne _ _ _ _ h2,
        SlotMap.find?_insert_ne _ _ _ _ h1]
    · rw [SlotMap.find?_insert_ne _ _ _ _ h2, SlotMap.find?_insert_ne _ _ _ _ h1]
  · simp [hi]

/-- The pattern-extraction result always binds `travelers` to the record
computed by `_extract_travelers`. -/
theorem find?_travelers_patterns (o : ExtractorOracles) (msg : String)
    (intent : ConversationIntent) :
    SlotMap.find? (extract_with_patterns o msg intent) "travelers"
      = some (travelersValue msg) := by
  unfold extract_with_patterns
  rw [find?_insPackingDefaults_ne _ _ _ _ (by decide) (by decide) (by decide),
    find?_insAccommodation_ne _ _ _ (by decide),
    find?_insUserPrefs_ne _ _ _ _ (by decide),
    find?_insInterests_ne _ _ _ _ (by decide),
    find?_insFamily_ne _ _ _ _ (by decide) (by decide) (by decide),
    find?_insActivities_ne _ _ _ (by decide)]
  unfold insTravelers
  exact SlotMap.find?_insert_self _ _ _

theorem nodup_insDestination (o : ExtractorOracles) (msg : String) (m : SlotMap)
    (h : (SlotMap.keys m).Nodup) : (SlotMap.keys (insDestination o msg m)).Nodup := by
  unfold insDestination
  cases o.destExtract msg with
  | none => exact h
  | some d =>
    by_cases hd : d.isEmpty <;> simp [hd, SlotMap.nodup_keys_insert, h]

theorem nodup_insDateRange (o : ExtractorOracles) (msg : String) (m : SlotMap)
    (h : (SlotMap.keys m).Nodup) : (SlotMap.keys (insDateRange o msg m)).Nodup := by
  unfold insDateRange
  cases o.durExtract msg with
  | none => exact h
  | some dr =>
    by_cases hd : dr.isEmpty <;> simp [hd, SlotMap.nodup_keys_insert, h]

theorem nodup_insTravelers (msg : String) (m : SlotMap)
    (h : (SlotMap.keys m).Nodup) : (SlotMap.keys (insTravelers msg m)).Nodup :=
  SlotMap.nodup_keys_insert _ _ _ h

theorem nodup_insActivities (msg : String) (m : SlotMap)
    (h : (SlotMap.keys m).Nodup) : (SlotMap.keys (insActivities msg m)).Nodup := by
  unfold insActivities
  by_cases ha : (extractActivities msg).isEmpty <;>
    simp [ha, SlotMap.nodup_keys_insert, h]

theorem nodup_insFamily (o : ExtractorOracles) (msg : String) (m : SlotMap)
    (h : (SlotMap.keys m).Nodup) : (SlotMap.keys (insFamily o msg m)).Nodup := by
  unfold insFamily
  cases o.famComp msg <;> cases o.famNames msg <;> cases o.famAges msg <;>
    first
      | exact h
      | exact SlotMap.nodup_keys_insert _ _ _ h
      | exact SlotMap.nodup_keys_insert _ _ _ (SlotMap.nodup_keys_insert _ _ _ h)
      | exact SlotMap.nodup_keys_insert _ _ _
          (SlotMap.nodup_keys_insert _ _ _ (SlotMap.nodup_keys_insert _ _ _ h))

theorem nodup_insInterests (o : ExtractorOracles) (msg : String) (m : SlotMap)
    (h : (SlotMap.keys m).Nodup) : (SlotMap.keys (insInterests o msg m)).Nodup := by
  unfold insInterests
  by_cases hi : (o.interestsExtract msg).isEmpty <;>
    simp [hi, SlotMap.nodup_keys_insert, h]

theorem nodup_insUserPrefs (msg : String) (intent : ConversationIntent) (m : SlotMap)
    (h : (SlotMap.keys m).Nodup) : (SlotMap.keys (insUserPrefs msg intent m)).Nodup := by
  unfold insUserPrefs
  by_cases hi : intent = ConversationIntent.destination_recommendation
  · by_cases hp : (extractUserPreferences msg).isEmpty <;>
      simp [hi, hp, SlotMap.nodup_keys_insert, h]
  · simp [hi, h]

theorem nodup_insAccommodation (msg : String) (m : SlotMap)
    (h : (SlotMap.keys m).Nodup) : (SlotMap.keys (insAccommodation msg m)).Nodup := by
  unfold insAccommodation
  cases extractAccommodation msg <;> simp [SlotMap.nodup_keys_insert, h]

theorem nodup_insPackingDefaults (msg : String) (intent : ConversationIntent)
    (m : SlotMap) (h : (SlotMap.keys m).Nodup) :
    (SlotMap.keys (insPackingDefaults msg intent m)).Nodup := by
  unfold insPackingDefaults
  by_cases hi : intent = ConversationIntent.packing_list
  · simp only [hi, if_pos]
    split
    · exact SlotMap.nodup_keys_insert _ _ _
        (SlotMap.nodup_keys_insert _ _ _ (SlotMap.nodup_keys_insert _ _ _ h))
    · exact SlotMap.nodup_keys_insert _ _ _ (SlotMap.nodup_keys_insert _ _ _ h)
  · simp [hi, h]

theorem nodup_extract_with_patterns (o : ExtractorOracles) (msg : String)
    (intent : ConversationIntent) :
    (SlotMap.keys (extract_with_patterns o msg intent)).Nodup := by
  unfold extract_with_patterns
  exact nodup_insPackingDefaults _ _ _
    (nodup_insAccommodation _ _
      (nodup_insUserPrefs _ _ _
        (nodup_insInterests _ _ _
          (nodup_insFamily _ _ _
            (nodup_insActivities _ _
              (nodup_insTravelers _ _
                (nodup_insDateRange _ _ _
                  (nodup_insDestination _ _ _ (by simp [SlotMap.keys])))))))))

/-- `travelers` is never reported missing by
`_get_missing_critical_data_from_extraction`: the pattern pass always binds
it to a non-empty dict. -/
theorem travelers_not_missing (o : ExtractorOracles) (msg : String)
    (intent : ConversationIntent) :
    fieldMissingFromExtraction (extract_with_patterns o msg intent) "travelers"
      = false := by
  unfold fieldMissingFromExtraction
  rw [find?_travelers_patterns]
  simp [travelersValue, Value.truthy]

theorem travelers_not_mem_missing (o : ExtractorOracles) (msg : String)
    (intent : ConversationIntent) :
    "travelers" ∉
      get_missing_critical_data_from_extraction
        (extract_with_patterns o msg intent) intent := by
  unfold get_missing_critical_data_from_extraction
  intro hmem
  rw [List.mem_filter] at hmem
  rw [travelers_not_missing] at hmem
  exact absurd hmem.2 (by simp)

/-- `_extract_field_with_llm` never binds a key other than its own field. -/
theorem extract_field_last?_ne (llm : String → String → Except Unit (Option Value))
    (msg f k : String) (h : k ≠ f) :
    SlotMap.last? (extract_field_with_llm llm msg f) k = none := by
  unfold extract_field_with_llm
  by_cases hc : llm_prompt_fields.contains f = true
  · rw [if_pos hc]
    cases hr : llm f msg with
    | error e => rfl
    | ok ov =>
      cases ov with
      | none => rfl
      | some v =>
        by_cases hs : llmShapeOk f v
        · have hb : (f == k) = false := by simpa [beq_iff_eq] using fun he => h he.symm
          simp [hs, SlotMap.last?, hb]
        · simp [hs, SlotMap.last?]
  · rw [if_neg hc]
    rfl

theorem llm_foldl_last?_none (llm : String → String → Except Unit (Option Value))
    (msg : String) (fs : List String) (acc : SlotMap) (k : String)
    (hacc : SlotMap.last? acc k = none) (h : k ∉ fs) :
    SlotMap.last?
      (fs.foldl (fun a f => SlotMap.update a (extract_field_with_llm llm msg f)) acc)
      k = none := by
  induction fs generalizing acc with
  | nil => simpa using hacc
  | cons f rest ih =>
    simp only [List.foldl_cons]
    have hf : k ≠ f := fun he => h (by simp [he])
    refine ih _ ?_ (fun hm => h (List.mem_cons_of_mem _ hm))
    rw [SlotMap.last?_update_of_none _ _ _ (extract_field_last?_ne llm msg f k hf)]
    exact hacc

/-- The LLM fallback dict binds only missing fields. -/
theorem llm_fallback_last?_none (llm : String → String → Except Unit (Option Value))
    (msg : String) (missing : List String) (k : String) (h : k ∉ missing) :
    SlotMap.last? (extract_with_llm_fallback llm msg missing) k = none := by
  unfold extract_with_llm_fallback
  by_cases he : missing.isEmpty
  · simp [he, SlotMap.last?]
  · simp only [he, Bool.false_eq_true, if_false]
    exact llm_foldl_last?_none llm msg missing [] k rfl h

/-- Through pattern pass, LLM fallback and merge, the extraction dict of one
turn always carries the `travelers` binding of the pattern pass. -/
theorem last?_travelers_extracted_merge (o : ExtractorOracles) (msg : String)
    (intent : ConversationIntent) :
    SlotMap.last? (extracted_merge o msg intent) "travelers"
      = some (travelersValue msg) := by
  unfold extracted_merge
  have hpat : SlotMap.last? (extract_with_patterns o msg intent) "travelers"
      = some (travelersValue msg) := by
    rw [SlotMap.last?_eq_find? _ _ (nodup_extract_with_patterns o msg intent)]
    exact find?_travelers_patterns o msg intent
  by_cases hm : (get_missing_critical_data_from_extraction
      (extract_with_patterns o msg intent) intent).isEmpty
  · simp [hm, hpat]
  · simp only [hm, Bool.not_false, if_true]
    by_cases hl : (extract_with_llm_fallback o.llmField msg
        (get_missing_critical_data_from_extraction
          (extract_with_patterns o msg intent) intent)).isEmpty
    · simp [hl, hpat]
    · simp only [hl, Bool.not_false, if_true]
      rw [SlotMap.last?_update_of_none _ _ _
        (llm_fallback_last?_none _ _ _ _ (travelers_not_mem_missing o msg intent))]
      exact hpat

/-! ### Claim theorems -/

/-- C1: for every accumulated slot map, input message and task kind (and every
behaviour of the heuristic / LLM collaborators, and whether or not the guarded
block faults), `extract_travel_data` never removes a key: a key bound in the
accumulated data to a non-empty value is still bound in the result, to the
same value unless the turn's own extraction dict supplies that key, in which
case it is bound to the supplied value. -/
theorem extraction_never_removes_keys (o : ExtractorOracles)
    (fault : Option String) (msg : String) (intent : ConversationIntent)
    (existing : SlotMap) (k : String) (v : Value)
    (hfind : SlotMap.find? existing k = some v) (_hne : v.truthy = true) :
    SlotMap.find? (extract_travel_data o fault msg intent existing) k = some v
    ∨ ∃ w, SlotMap.last? (extracted_merge o msg intent) k = some w
        ∧ SlotMap.find? (extract_travel_data o fault msg intent existing) k = some w := by
  cases fault with
  | some e =>
    left
    have : extract_travel_data o (some e) msg intent existing = existing := rfl
    rw [this]
    exact hfind
  | none =>
    have hrun : extract_travel_data o none msg intent existing
        = SlotMap.update existing (extracted_merge o msg intent) := rfl
    rw [hrun, SlotMap.find?_update]
    cases h2 : SlotMap.last? (extracted_merge o msg intent) k with
    | none => left; exact hfind
    | some w => right; exact ⟨w, rfl, rfl⟩

/-- Witness for C1 at a concrete input: a confirmed destination survives a
turn whose message supplies nothing and whose LLM calls all raise. -/
theorem extraction_never_removes_keys_witness :
    SlotMap.find? exC1 "destination" = some (.scalar (.sStr "Rome"))
    ∧ (Value.scalar (.sStr "Rome")).truthy = true
    ∧ (SlotMap.find? (extract_travel_data noOracle none "hi" .attractions exC1)
          "destination" = some (.scalar (.sStr "Rome"))
       ∨ ∃ w, SlotMap.last? (extracted_merge noOracle "hi" .attractions)
              "destination" = some w
           ∧ SlotMap.find? (extract_travel_data noOracle none "hi" .attractions exC1)
              "destination" = some w) :=
  ⟨by decide, by decide,
   extraction_never_removes_keys noOracle none "hi" .attractions exC1
     "destination" (.scalar (.sStr "Rome")) (by decide) (by decide)⟩

/-- C7: whenever the guarded block of `extract_travel_data` raises (at any
point, with any message, task kind and collaborator behaviour), the function
returns the prior accumulated slot map unchanged instead of propagating the
exception. -/
theorem extraction_fault_returns_existing (o : ExtractorOracles) (e : String)
    (msg : String) (intent : ConversationIntent) (existing : SlotMap) :
    extract_travel_data o (some e) msg intent existing = existing := rfl

/-- C2 (amended): `get_missing_critical_slots` treats `date_range` as present
iff at least one of the four keys start, end, duration_days, flexible is set
to a truthy value; the month and season keys are ignored by this check
(verified over all 2^6 combinations of the six keys named by the claim). -/
theorem date_range_presence_uses_four_keys :
    ∀ s e d f m se : Bool,
      ("date_range" ∈ get_missing_critical_slots .packing_list (c2Data s e d f m se))
        ↔ (s || e || d || f) = false := by decide

/-- C2 counterexample: with only `month` set (a truthy value), the claim says
`date_range` counts as present, but `get_missing_critical_slots` reports it
missing. -/
theorem date_range_month_only_reported_missing :
    (objGet (c2DateRange false false false false true false) "month").truthy = true
    ∧ "date_range" ∈
        get_missing_critical_slots .packing_list
          (c2Data false false false false true false) := by decide

/-- C3 counterexample: for "show me attractions in Rome" with active task
packing in the data-collection phase, the classifier does detect attractions,
but `_should_allow_intent_transition` rejects the switch (the message has no
pivot marker and the phase is not refinement/completed), so the turn leaves
the active task kind at packing — the claim says it switches. -/
theorem attractions_switch_rejected_in_data_collection :
    detect_intent_from_message c3Message = .attractions
    ∧ should_allow_intent_transition .packing_list .data_collection c3Message
        .attractions = false
    ∧ next_intent true .packing_list .data_collection c3Message = .packing_list := by
  decide

/-- C3 (amended): "show me attractions in Rome" during a packing task does
contain a current-task continuation word and a new-task keyword, so it passes
the continuation guard; but in the data-collection phase the transition is
still rejected, because the message has no pivot marker and the phase is not
refinement or completed.  The same message does switch the active task to
attractions once the phase is refinement or completed. -/
theorem attractions_switch_allowed_after_refinement :
    (should_allow_intent_transition .packing_list .refinement c3Message
        .attractions = true
     ∧ next_intent true .packing_list .refinement c3Message = .attractions)
    ∧ (should_allow_intent_transition .packing_list .completed c3Message
        .attractions = true
     ∧ next_intent true .packing_list .completed c3Message = .attractions)
    ∧ (should_allow_intent_transition .packing_list .data_collection c3Message
        .attractions = false
     ∧ next_intent true .packing_list .data_collection c3Message = .packing_list) := by
  decide

/-- C4: for every session state (any current task kind and phase, any
validator verdict) the message "yes" never changes the active task kind;
moreover `_should_allow_intent_transition` rejects "yes" whatever intent the
classifier might report for it (it is a bare confirmation word). -/
theorem yes_never_changes_intent :
    ∀ (valOk : Bool) (current detected : ConversationIntent)
      (phase : ConversationPhase),
      next_intent valOk current phase "yes" = current
      ∧ should_allow_intent_transition current phase "yes" detected = false := by
  decide

/-- C9: the intent classifier is a pure total function (a Lean `def`) that
scans the fixed per-kind lexicons in the priority order destination, packing,
attractions, returning the first kind whose lexicon matches and general
("undetermined") when none does; in particular a text matching both the
destination and the attractions lexicon ("please recommend attractions") is
classified as destination. -/
theorem detect_intent_priority_order :
    (∀ message : String,
      (detect_intent_from_message message = .destination_recommendation
        ↔ lexiconHit destinationKeywords message = true)
      ∧ (detect_intent_from_message message = .packing_list
        ↔ (lexiconHit destinationKeywords message = false
           ∧ lexiconHit packingKeywords message = true))
      ∧ (detect_intent_from_message message = .attractions
        ↔ (lexiconHit destinationKeywords message = false
           ∧ lexiconHit packingKeywords message = false
           ∧ lexiconHit attractionsKeywords message = true))
      ∧ (detect_intent_from_message message = .general
        ↔ (lexiconHit destinationKeywords message = false
           ∧ lexiconHit packingKeywords message = false
           ∧ lexiconHit attractionsKeywords message = false)))
    ∧ detect_intent_from_message "please recommend attractions"
        = .destination_recommendation
    ∧ lexiconHit attractionsKeywords "please recommend attractions" = true := by
  refine ⟨fun message => ?_, by decide, by decide⟩
  unfold detect_intent_from_message
  cases hd : lexiconHit destinationKeywords message <;>
    cases hp : lexiconHit packingKeywords message <;>
      cases ha : lexiconHit attractionsKeywords message <;>
        simp

/-- C5: in every packing pipeline run with a destination present, if the
weather call fails (`success=False`) or raises, the weather entry in the
result list is a failed `ToolCallResult`, the packing-rules tool is still
invoked — with the fixed moderate-climate fallback substituted as its
`weather_data` argument — and the packing entry succeeds iff the packing tool
itself succeeds, independently of the weather failure. -/
theorem weather_failure_does_not_block_packing (wc cc : ToolOutcome)
    (pc : PackingArgs → ToolOutcome) (data : SlotMap) (e : String)
    (hdest : SlotMap.truthyAt data "destination" = true)
    (hw : wc = .fail e ∨ wc = .exn e) :
    (⟨"weather", false, none, some e, none⟩ : ToolResult)
        ∈ execute_packing_tools wc cc pc data
    ∧ packingStep pc (mkPackingArgs data (weatherFallback wc))
        ∈ execute_packing_tools wc cc pc data
    ∧ (weatherFallback wc = moderateFallbackWithSummary
       ∨ weatherFallback wc = moderateFallback)
    ∧ (packingStep pc (mkPackingArgs data (weatherFallback wc))).success
        = (pc (mkPackingArgs data (weatherFallback wc))).succeeded := by
  have hsucc : ∀ args, (packingStep pc args).success = (pc args).succeeded := by
    intro args
    cases hp : pc args <;> simp [packingStep, ToolOutcome.succeeded, hp]
  rcases hw with h | h <;> subst h <;>
    refine ⟨?_, ?_, ?_, hsucc _⟩ <;>
      simp [execute_packing_tools, weatherStep, weatherFallback, hdest,
        List.mem_append]

/-- Witness for C5 at a concrete input: weather fails with "boom", city info
succeeds, the packing tool succeeds on whatever it is given. -/
theorem weather_failure_does_not_block_packing_witness :
    SlotMap.truthyAt [("destination", Value.scalar (.sStr "Rome"))] "destination" = true
    ∧ ((ToolOutcome.fail "boom") = ToolOutcome.fail "boom"
       ∨ (ToolOutcome.fail "boom") = ToolOutcome.exn "boom")
    ∧ ((⟨"weather", false, none, some "boom", none⟩ : ToolResult)
        ∈ execute_packing_tools (.fail "boom") (.ok [] false) (fun _ => .ok [] false)
            [("destination", Value.scalar (.sStr "Rome"))]
       ∧ packingStep (fun _ => .ok [] false)
           (mkPackingArgs [("destination", Value.scalar (.sStr "Rome"))]
             (weatherFallback (.fail "boom")))
         ∈ execute_packing_tools (.fail "boom") (.ok [] false) (fun _ => .ok [] false)
             [("destination", Value.scalar (.sStr "Rome"))]
       ∧ (weatherFallback (.fail "boom") = moderateFallbackWithSummary
          ∨ weatherFallback (.fail "boom") = moderateFallback)
       ∧ (packingStep (fun _ => .ok [] false)
            (mkPackingArgs [("destination", Value.scalar (.sStr "Rome"))]
              (weatherFallback (.fail "boom")))).success
          = ((fun (_ : PackingArgs) => ToolOutcome.ok [] false)
              (mkPackingArgs [("destination", Value.scalar (.sStr "Rome"))]
                (weatherFallback (.fail "boom")))).succeeded) :=
  ⟨by decide, Or.inl rfl,
   weather_failure_does_not_block_packing (.fail "boom") (.ok [] false)
     (fun _ => .ok [] false) [("destination", Value.scalar (.sStr "Rome"))]
     "boom" (by decide) (Or.inl rfl)⟩

/-- C6: for every task kind and every accumulated slot map (the safety
hypothesis records that the stored `activities_planned` value is one Python's
`in` operator accepts, which every extraction path guarantees), the
pre-completion quality gate terminates with the next phase set to completed —
including for the destination task (no task-specific checks) and the general
task (no checks at all). -/
theorem quality_gate_always_completes (intent : ConversationIntent)
    (data : SlotMap) (_hsafe : activitiesMembershipSafe data = true) :
    (run_pre_finalize_checks intent data).next_phase = some .completed := by
  cases intent <;> simp [run_pre_finalize_checks, create_scratchpad]

/-- Witness for C6 at a concrete input: the destination task with an empty
slot map (zero task-specific checks) completes. -/
theorem quality_gate_always_completes_witness :
    activitiesMembershipSafe [] = true
    ∧ (run_pre_finalize_checks .destination_recommendation []).next_phase
        = some .completed :=
  ⟨by decide,
   quality_gate_always_completes .destination_recommendation [] (by decide)⟩

/-- C8: whenever an exception escapes the tool-execution block of a
processing-phase turn (any non-general task kind, any accumulated data), the
handler catches it and returns the apology message carrying the static
fallback recommendation, with the next phase set to refinement — the session
is neither left in processing nor aborted. -/
theorem pipeline_exception_forces_refinement (intent : ConversationIntent)
    (data : SlotMap) (e : String) (hng : intent ≠ .general) :
    handle_processing_phase intent data (.error e)
      = ⟨processing_fallback_message intent e, some .refinement, data, []⟩ := by
  cases intent with
  | general => exact absurd rfl hng
  | destination_recommendation => simp [handle_processing_phase, create_scratchpad]
  | packing_list => simp [handle_processing_phase, create_scratchpad]
  | attractions => simp [handle_processing_phase, create_scratchpad]

/-- Witness for C8 at a concrete input: a packing run whose pipeline raises
"weather service down". -/
theorem pipeline_exception_forces_refinement_witness :
    (ConversationIntent.packing_list ≠ ConversationIntent.general)
    ∧ handle_processing_phase .packing_list [] (.error "weather service down")
        = ⟨processing_fallback_message .packing_list "weather service down",
           some .refinement, [], []⟩ :=
  ⟨by decide,
   pipeline_exception_forces_refinement .packing_list [] "weather service down"
     (by decide)⟩

/-- C10 counterexample: for the message "0 adults" the traveler extractor
copies the explicit count verbatim and returns adults = 0, refuting the
claimed invariant adults ≥ 1. -/
theorem zero_adults_extracted :
    travelersCalc "0 adults" = (0, 0)
    ∧ ¬(1 ≤ (travelersCalc "0 adults").1) := by decide

/-- C10 (amended): the traveler extractor always returns a record with
natural-number adults and kids counts (so kids ≥ 0 and adults ≥ 0, but an
explicit "0 adults" yields adults = 0); it returns exactly
adults = 1, kids = 0 when no traveler pattern matches the message; and every
pattern-extraction pass supplies the `travelers` key, which therefore
overwrites any previously accumulated traveler counts in the merged result of
`extract_travel_data`. -/
theorem travelers_always_supplied (o : ExtractorOracles) (msg : String)
    (intent : ConversationIntent) (existing : SlotMap) :
    SlotMap.find? (extract_with_patterns o msg intent) "travelers"
      = some (travelersValue msg)
    ∧ (noTravelerSignal msg = true → travelersCalc msg = (1, 0))
    ∧ SlotMap.find? (extract_travel_data o none msg intent existing) "travelers"
      = some (travelersValue msg) := by
  refine ⟨find?_travelers_patterns o msg intent, ?_, ?_⟩
  · intro h
    unfold noTravelerSignal at h
    simp only [Bool.and_eq_true, Bool.not_eq_true', Option.isNone_iff_eq_none] at h
    obtain ⟨⟨⟨⟨⟨⟨h1, h2⟩, h3⟩, h4⟩, h5⟩, h6⟩, h7⟩ := h
    simp only [travelersCalc, h1, h2, h3, h4, h5, h6, h7]
    simp
  · have hrun : extract_travel_data o none msg intent existing
        = SlotMap.update existing (extracted_merge o msg intent) := rfl
    rw [hrun, SlotMap.find?_update, last?_travelers_extracted_merge]

/-- Witness for C10 (amended) at a concrete input: the message "hello"
mentions no travelers and gets the default record, supplied into the merged
result. -/
theorem travelers_always_supplied_witness :
    noTravelerSignal "hello" = true
    ∧ (SlotMap.find? (extract_with_patterns noOracle "hello" .packing_list)
        "travelers" = some (travelersValue "hello")
       ∧ (noTravelerSignal "hello" = true → travelersCalc "hello" = (1, 0))
       ∧ SlotMap.find?
           (extract_travel_data noOracle none "hello" .packing_list [])
           "travelers" = some (travelersValue "hello")) :=
  ⟨by decide, travelers_always_supplied noOracle "hello" .packing_list []⟩
